import Mathlib

/-!
Verification of the webhook normalization service (supersdr).

This file gives a shallow embedding, in Lean 4, of the parts of the
TypeScript code base that the specification's testable properties are
about:

* the canonical message model (`src/domain/entities/NormalizedMessage.ts`);
* the Zod validation schemas of both providers
  (`src/adapters/zapi/ZApiSchema.ts`, `src/adapters/meta/MetaSchema.ts`);
* the two provider adapters (`ZApiAdapter`, `MetaAdapter`);
* the Prisma-backed message repository
  (`src/infrastructure/database/repositories/PrismaMessageRepository.ts`),
  modelled over an explicit list of database rows;
* the two use cases (`ProcessWebhookUseCase`, `ClassifyMessageUseCase`);
* the Claude classifier response parser
  (`src/infrastructure/llm/ClaudeService.ts`); and
* the `POST /webhook/:provider` route handler
  (`src/infrastructure/http/routes/webhookRoutes.ts`).

Conventions of the embedding:

* Raw JSON request bodies are values of the inductive `Json` type below;
  JavaScript numbers are modelled as rationals (JSON numerals are decimal
  and the doubles appearing here - epoch stamps, confidences - are
  representable exactly); `Date` values are modelled by their epoch
  millisecond time value, `Option Int`, with `none` standing for an
  Invalid Date (NaN time value).
* Thrown JavaScript exceptions are modelled with `Except`; the error
  taxonomy of `src/domain/errors/WebhookErrors.ts` is the inductive
  `ThrownError`.
* `async`/`await` sequencing is modelled by explicit state passing of the
  repository row list.
-/

/-- JSON values, the type of raw webhook payloads (`unknown` on the
TypeScript side, produced by `express.json()`).  Numbers are rationals. -/
inductive Json where
  | null : Json
  | bool (b : Bool) : Json
  | num (q : ℚ) : Json
  | str (s : String) : Json
  | arr (elems : List Json) : Json
  | obj (fields : List (String × Json)) : Json

/-- Property access `o[k]` on a JSON value: the first binding of key `k`
when the value is an object, `none` (i.e. `undefined`) otherwise. -/
def Json.get (j : Json) (k : String) : Option Json :=
  match j with
  | .obj fields => fields.lookup k
  | _ => none

/-- Truthiness of an optional JavaScript string (as used in optional
chains such as `payload.text?.message`): an absent value and the empty
string are falsy, every other string is truthy. -/
def jsTruthyStr (o : Option String) : Bool :=
  match o with
  | none => false
  | some s => !(s == "")

/-- JavaScript `a || b` on two strings: `b` when `a` is falsy (empty),
otherwise `a`. -/
def jsOrStr (a b : String) : String :=
  if a = "" then b else a

/-- Characters treated as leading whitespace by `parseInt` (the common
ones; the exotic Unicode space code points do not occur in this code
base's inputs). -/
def jsStrWhitespace (c : Char) : Bool :=
  c = ' ' || c = '\t' || c = '\n' || c = '\r'

/-- Numeric value of a decimal digit character. -/
def decDigitVal (c : Char) : ℕ := c.toNat - '0'.toNat

/-- Numeric value of a hexadecimal digit character. -/
def hexDigitVal (c : Char) : ℕ :=
  if c.isDigit then c.toNat - '0'.toNat
  else if 'a' ≤ c ∧ c ≤ 'f' then c.toNat - 'a'.toNat + 10
  else c.toNat - 'A'.toNat + 10

/-- Whether a character is a hexadecimal digit. -/
def isHexDigitChar (c : Char) : Bool :=
  c.isDigit || ('a' ≤ c && c ≤ 'f') || ('A' ≤ c && c ≤ 'F')

/-- Fold a digit list into a natural number in the given base. -/
def digitsToNat (base : ℕ) (val : Char → ℕ) (ds : List Char) : ℕ :=
  ds.foldl (fun acc c => acc * base + val c) 0

/-- JavaScript `parseInt(s)` with the radix argument omitted: skip
leading whitespace, read an optional sign, auto-detect a `0x`/`0X`
hexadecimal prefix, then read the longest prefix of digits; `none`
models the `NaN` result when no digit is read. -/
def jsParseInt (s : String) : Option ℤ :=
  let cs := s.data.dropWhile jsStrWhitespace
  let signAndRest : ℤ × List Char :=
    match cs with
    | '-' :: rest => (-1, rest)
    | '+' :: rest => (1, rest)
    | _ => (1, cs)
  let sign := signAndRest.1
  match signAndRest.2 with
  | '0' :: 'x' :: rest =>
      let ds := rest.takeWhile isHexDigitChar
      if ds = [] then none else some (sign * digitsToNat 16 hexDigitVal ds)
  | '0' :: 'X' :: rest =>
      let ds := rest.takeWhile isHexDigitChar
      if ds = [] then none else some (sign * digitsToNat 16 hexDigitVal ds)
  | rest =>
      let ds := rest.takeWhile Char.isDigit
      if ds = [] then none else some (sign * digitsToNat 10 decDigitVal ds)

/-- Truncation of a rational toward zero (`Int.tdiv` of numerator by
denominator), the `ToIntegerOrInfinity` rounding applied by the `Date`
constructor to a finite number. -/
def ratTrunc (q : ℚ) : ℤ :=
  Int.tdiv q.num (q.den : ℤ)

/-- Scale an integer number of seconds to a rational number of
milliseconds (the `parseInt(...) * 1000` arithmetic of
`MetaAdapter.normalize`, performed on JavaScript numbers). -/
def intToRatTimes1000 (n : ℤ) : ℚ :=
  (n : ℚ) * 1000

/-- The JavaScript `new Date(t)` constructor applied to a number
(`none` = `NaN`): the resulting epoch-millisecond time value, with
`none` for an Invalid Date. -/
def jsNewDate (t : Option ℚ) : Option ℤ :=
  t.map ratTrunc

/-- Providers supported by the system (`Provider` in
`src/domain/entities/NormalizedMessage.ts`). -/
inductive Provider where
  | zapi : Provider
  | meta : Provider
deriving DecidableEq

/-- Message types; the MVP supports only text
(`MessageType` in `NormalizedMessage.ts`). -/
inductive MessageType where
  | text : MessageType
deriving DecidableEq

/-- Contact information (`Contact` in `NormalizedMessage.ts`). -/
structure Contact where
  phone : String
  name : String
deriving DecidableEq

/-- Message content (`MessageContent` in `NormalizedMessage.ts`). -/
structure MessageContent where
  type : MessageType
  content : String
deriving DecidableEq

/-- Intent classification produced by the LLM
(`Classification` in `NormalizedMessage.ts`). -/
structure Classification where
  intent : String
  confidence : ℚ
deriving DecidableEq

/-- The normalized message entity (`NormalizedMessage` in
`NormalizedMessage.ts`).  Timestamps are epoch milliseconds, with `none`
for an Invalid Date. -/
structure NormalizedMessage where
  id : String
  externalId : String
  provider : Provider
  contact : Contact
  message : MessageContent
  timestamp : Option ℤ
  receivedAt : ℤ
  isFromMe : Bool
  classification : Option Classification
deriving DecidableEq

/-- Data for creating a normalized message, before persistence assigns
`id` and `receivedAt` (`CreateNormalizedMessage` in
`NormalizedMessage.ts`). -/
structure CreateNormalizedMessage where
  externalId : String
  provider : Provider
  contact : Contact
  message : MessageContent
  timestamp : Option ℤ
  isFromMe : Bool
deriving DecidableEq

/-- Error taxonomy of `src/domain/errors/WebhookErrors.ts`, together with
a constructor for plain JavaScript `Error` values.  `validationError`
carries the path of the first failing field check (Zod reports a list of
issues; this embedding truncates it to the first one - acceptance and
the parsed value are unchanged by this). -/
inductive ThrownError where
  | validationError (provider : Provider) (issuePath : String)
  | unknownProviderError (received : Option String)
  | adapterNotFoundError (provider : Provider)
  | processingError (step : String) (original : ThrownError)
  | jsError (message : String)
deriving DecidableEq

/-- Zod `z.string()` check on a property value (given with its path). -/
def zodStrAt (v : Option Json) (path : String) : Except String String :=
  match v with
  | some (.str s) => .ok s
  | _ => .error path

/-- Zod `z.string().min(1)` check on a property value. -/
def zodStrMin1At (v : Option Json) (path : String) : Except String String :=
  match v with
  | some (.str s) => if s = "" then .error path else .ok s
  | _ => .error path

/-- Zod `z.boolean()` check on a property value. -/
def zodBoolAt (v : Option Json) (path : String) : Except String Bool :=
  match v with
  | some (.bool b) => .ok b
  | _ => .error path

/-- Zod `z.number()` check on a property value. -/
def zodNumAt (v : Option Json) (path : String) : Except String ℚ :=
  match v with
  | some (.num q) => .ok q
  | _ => .error path

/-- Zod `z.literal(lit)` check (for string literals) on a property
value. -/
def zodLitAt (v : Option Json) (lit : String) (path : String) : Except String String :=
  match v with
  | some (.str s) => if s = lit then .ok s else .error path
  | _ => .error path

/-- Zod `z.string().optional()` check on a property value. -/
def zodOptStrAt (v : Option Json) (path : String) : Except String (Option String) :=
  match v with
  | none => .ok none
  | some (.str s) => .ok (some s)
  | some _ => .error path

/-- Zod `z.boolean().optional()` check on a property value. -/
def zodOptBoolAt (v : Option Json) (path : String) : Except String (Option Bool) :=
  match v with
  | none => .ok none
  | some (.bool b) => .ok (some b)
  | some _ => .error path

/-- Zod `z.number().optional()` check on a property value. -/
def zodOptNumAt (v : Option Json) (path : String) : Except String (Option ℚ) :=
  match v with
  | none => .ok none
  | some (.num q) => .ok (some q)
  | some _ => .error path

/-- Zod `z.string().nullable().optional()` check on a property value:
`none` = absent, `some none` = `null`, `some (some s)` = a string. -/
def zodOptNullableStrAt (v : Option Json) (path : String) :
    Except String (Option (Option String)) :=
  match v with
  | none => .ok none
  | some .null => .ok (some none)
  | some (.str s) => .ok (some (some s))
  | some _ => .error path

/-- Zod `z.array(..)` type check on a property value, yielding the raw
elements. -/
def zodArrAt (v : Option Json) (path : String) : Except String (List Json) :=
  match v with
  | some (.arr xs) => .ok xs
  | _ => .error path

/-- The `text` object of a Z-API payload (`ZApiTextSchema` in
`src/adapters/zapi/ZApiSchema.ts`): `{ message: z.string().min(1) }`. -/
structure ZApiText where
  message : String
deriving DecidableEq

/-- The `image` object of a Z-API payload (`ZApiImageSchema` in
`ZApiSchema.ts`). -/
structure ZApiImage where
  imageUrl : String
  thumbnailUrl : Option String
  caption : Option String
  mimeType : Option String
  viewOnce : Option Bool
  width : Option ℚ
  height : Option ℚ
deriving DecidableEq

/-- A validated Z-API webhook payload (`ZApiWebhookPayload` in
`ZApiSchema.ts`); `type` is always the literal `"ReceivedCallback"`. -/
structure ZApiWebhookPayload where
  instanceId : String
  messageId : String
  phone : String
  fromMe : Bool
  momment : ℚ
  status : String
  chatName : String
  senderName : String
  senderPhoto : Option (Option String)
  participantPhone : Option (Option String)
  photo : Option (Option String)
  broadcast : Option Bool
  type : String
  text : Option ZApiText
  image : Option ZApiImage
deriving DecidableEq

/-- Parse of the optional `text` sub-object of `ZApiWebhookSchema`. -/
def ZApiTextSchema.parseOpt (v : Option Json) : Except String (Option ZApiText) :=
  match v with
  | none => .ok none
  | some o =>
    match o with
    | .obj _ => do
        let message ← zodStrMin1At (o.get "message") "text.message"
        .ok (some { message })
    | _ => .error "text"

/-- Parse of the optional `image` sub-object of `ZApiWebhookSchema`. -/
def ZApiImageSchema.parseOpt (v : Option Json) : Except String (Option ZApiImage) :=
  match v with
  | none => .ok none
  | some o =>
    match o with
    | .obj _ => do
        let imageUrl ← zodStrAt (o.get "imageUrl") "image.imageUrl"
        let thumbnailUrl ← zodOptStrAt (o.get "thumbnailUrl") "image.thumbnailUrl"
        let caption ← zodOptStrAt (o.get "caption") "image.caption"
        let mimeType ← zodOptStrAt (o.get "mimeType") "image.mimeType"
        let viewOnce ← zodOptBoolAt (o.get "viewOnce") "image.viewOnce"
        let width ← zodOptNumAt (o.get "width") "image.width"
        let height ← zodOptNumAt (o.get "height") "image.height"
        .ok (some { imageUrl, thumbnailUrl, caption, mimeType, viewOnce, width, height })
    | _ => .error "image"

/-- `ZApiWebhookSchema.safeParse` (`ZApiSchema.ts`): the declared field
checks in declaration order, failing with the path of the first invalid
field. -/
def ZApiWebhookSchema.safeParse (j : Json) : Except String ZApiWebhookPayload := do
  let instanceId ← zodStrMin1At (j.get "instanceId") "instanceId"
  let messageId ← zodStrMin1At (j.get "messageId") "messageId"
  let phone ← zodStrMin1At (j.get "phone") "phone"
  let fromMe ← zodBoolAt (j.get "fromMe") "fromMe"
  let momment ← zodNumAt (j.get "momment") "momment"
  let status ← zodStrAt (j.get "status") "status"
  let chatName ← zodStrAt (j.get "chatName") "chatName"
  let senderName ← zodStrAt (j.get "senderName") "senderName"
  let senderPhoto ← zodOptNullableStrAt (j.get "senderPhoto") "senderPhoto"
  let participantPhone ← zodOptNullableStrAt (j.get "participantPhone") "participantPhone"
  let photo ← zodOptNullableStrAt (j.get "photo") "photo"
  let broadcast ← zodOptBoolAt (j.get "broadcast") "broadcast"
  let type ← zodLitAt (j.get "type") "ReceivedCallback" "type"
  let text ← ZApiTextSchema.parseOpt (j.get "text")
  let image ← ZApiImageSchema.parseOpt (j.get "image")
  .ok { instanceId, messageId, phone, fromMe, momment, status, chatName,
        senderName, senderPhoto, participantPhone, photo, broadcast, type,
        text, image }

/-- `ZApiAdapter.normalizePhone`: strip every non-digit character
(`phone.replace(/\D/g, '')`). -/
def ZApiAdapter.normalizePhone (phone : String) : String :=
  String.mk (phone.data.filter Char.isDigit)

/-- `ZApiAdapter.extractContent`: text message first, then the image
caption, then a placeholder (`[Imagem recebida]` when an image is
present, `[Mídia recebida]` otherwise); the `payload.text?.message` and
`payload.image?.caption` conditions are JavaScript truthiness tests. -/
def ZApiAdapter.extractContent (p : ZApiWebhookPayload) : String :=
  if jsTruthyStr (p.text.map ZApiText.message) then
    (p.text.map ZApiText.message).getD ""
  else if jsTruthyStr (p.image.bind ZApiImage.caption) then
    (p.image.bind ZApiImage.caption).getD ""
  else if p.image.isSome then "[Imagem recebida]"
  else "[Mídia recebida]"

/-- `ZApiAdapter.normalize`: map a validated Z-API payload to the
canonical create projection. -/
def ZApiAdapter.normalize (p : ZApiWebhookPayload) : CreateNormalizedMessage :=
  { externalId := p.messageId
    provider := Provider.zapi
    contact := { phone := ZApiAdapter.normalizePhone p.phone
                 name := jsOrStr p.senderName p.chatName }
    message := { type := MessageType.text
                 content := ZApiAdapter.extractContent p }
    timestamp := jsNewDate (some p.momment)
    isFromMe := p.fromMe }

/-- `ZApiAdapter.validate`: `safeParse`, throwing a
`WebhookValidationError` for the `zapi` provider on failure. -/
def ZApiAdapter.validate (j : Json) : Except ThrownError ZApiWebhookPayload :=
  match ZApiWebhookSchema.safeParse j with
  | .error issue => .error (.validationError Provider.zapi issue)
  | .ok p => .ok p

/-- The `text` object of a Meta message (`MetaTextSchema` in
`src/adapters/meta/MetaSchema.ts`): `{ body: z.string().min(1) }`. -/
structure MetaText where
  body : String
deriving DecidableEq

/-- A single Meta message (`MetaMessageSchema`); `from` is rendered
`from_` because `from` is a Lean keyword, and `type` is always the
literal `"text"`. -/
structure MetaMessage where
  from_ : String
  id : String
  timestamp : String
  type : String
  text : MetaText
deriving DecidableEq

/-- Contact information of a Meta payload (`MetaContactSchema`). -/
structure MetaContact where
  profileName : String
  wa_id : String
deriving DecidableEq

/-- Metadata of a Meta payload (`MetaMetadataSchema`). -/
structure MetaMetadata where
  display_phone_number : String
  phone_number_id : String
deriving DecidableEq

/-- The `value` object of a Meta change (`MetaValueSchema`);
`messaging_product` is always the literal `"whatsapp"`, and `contacts`
and `messages` are validated with `.min(1)`. -/
structure MetaValue where
  messaging_product : String
  metadata : MetaMetadata
  contacts : List MetaContact
  messages : List MetaMessage
deriving DecidableEq

/-- A Meta change (`MetaChangeSchema`); `field` is always the literal
`"messages"`. -/
structure MetaChange where
  value : MetaValue
  field : String
deriving DecidableEq

/-- A Meta entry (`MetaEntrySchema`). -/
structure MetaEntry where
  id : String
  changes : List MetaChange
deriving DecidableEq

/-- A validated Meta webhook payload (`MetaWebhookPayload` in
`MetaSchema.ts`); `object` is always the literal
`"whatsapp_business_account"`, and `entry` is validated with
`.min(1)`. -/
structure MetaWebhookPayload where
  object : String
  entry : List MetaEntry
deriving DecidableEq

/-- Element-wise parse of a JSON array (the semantics of Zod's
`z.array(X)` element validation). -/
def parseList {α : Type} (f : Json → Except String α) : List Json → Except String (List α)
  | [] => .ok []
  | x :: xs => do
      let y ← f x
      let ys ← parseList f xs
      .ok (y :: ys)

/-- Parse of `MetaTextSchema` on a property value. -/
def MetaTextSchema.parse (v : Option Json) : Except String MetaText :=
  match v with
  | some o =>
    match o with
    | .obj _ => do
        let body ← zodStrMin1At (o.get "body") "text.body"
        .ok { body }
    | _ => .error "text"
  | none => .error "text"

/-- Parse of `MetaMessageSchema` on an array element. -/
def MetaMessageSchema.parse (j : Json) : Except String MetaMessage :=
  match j with
  | .obj _ => do
      let from_ ← zodStrMin1At (j.get "from") "messages.from"
      let id ← zodStrMin1At (j.get "id") "messages.id"
      let timestamp ← zodStrAt (j.get "timestamp") "messages.timestamp"
      let type ← zodLitAt (j.get "type") "text" "messages.type"
      let text ← MetaTextSchema.parse (j.get "text")
      .ok { from_, id, timestamp, type, text }
  | _ => .error "messages"

/-- Parse of `MetaContactSchema` on an array element. -/
def MetaContactSchema.parse (j : Json) : Except String MetaContact :=
  match j with
  | .obj _ => do
      let profile ← (match j.get "profile" with
        | some p =>
          match p with
          | .obj _ => zodStrAt (p.get "name") "contacts.profile.name"
          | _ => .error "contacts.profile"
        | none => .error "contacts.profile")
      let wa_id ← zodStrAt (j.get "wa_id") "contacts.wa_id"
      .ok { profileName := profile, wa_id }
  | _ => .error "contacts"

/-- Parse of `MetaMetadataSchema` on a property value. -/
def MetaMetadataSchema.parse (v : Option Json) : Except String MetaMetadata :=
  match v with
  | some o =>
    match o with
    | .obj _ => do
        let display_phone_number ← zodStrAt (o.get "display_phone_number") "metadata.display_phone_number"
        let phone_number_id ← zodStrAt (o.get "phone_number_id") "metadata.phone_number_id"
        .ok { display_phone_number, phone_number_id }
    | _ => .error "metadata"
  | none => .error "metadata"

/-- Parse of `MetaValueSchema` on a property value (array element issue
paths are reported without the numeric index). -/
def MetaValueSchema.parse (v : Option Json) : Except String MetaValue :=
  match v with
  | some o =>
    match o with
    | .obj _ => do
        let messaging_product ← zodLitAt (o.get "messaging_product") "whatsapp" "value.messaging_product"
        let metadata ← MetaMetadataSchema.parse (o.get "metadata")
        let rawContacts ← zodArrAt (o.get "contacts") "contacts"
        let contacts ← parseList MetaContactSchema.parse rawContacts
        let rawMessages ← zodArrAt (o.get "messages") "messages"
        let messages ← parseList MetaMessageSchema.parse rawMessages
        if contacts = [] then .error "contacts" else
        if messages = [] then .error "messages" else
        .ok { messaging_product, metadata, contacts, messages }
    | _ => .error "value"
  | none => .error "value"

/-- Parse of `MetaChangeSchema` on an array element. -/
def MetaChangeSchema.parse (j : Json) : Except String MetaChange :=
  match j with
  | .obj _ => do
      let value ← MetaValueSchema.parse (j.get "value")
      let field ← zodLitAt (j.get "field") "messages" "changes.field"
      .ok { value, field }
  | _ => .error "changes"

/-- Parse of `MetaEntrySchema` on an array element. -/
def MetaEntrySchema.parse (j : Json) : Except String MetaEntry :=
  match j with
  | .obj _ => do
      let id ← zodStrAt (j.get "id") "entry.id"
      let rawChanges ← zodArrAt (j.get "changes") "entry.changes"
      let changes ← parseList MetaChangeSchema.parse rawChanges
      if changes = [] then .error "entry.changes" else
      .ok { id, changes }
  | _ => .error "entry"

/-- `MetaWebhookSchema.safeParse` (`MetaSchema.ts`): top-level literal
`object` field and a `.min(1)` array of entries. -/
def MetaWebhookSchema.safeParse (j : Json) : Except String MetaWebhookPayload := do
  let object ← zodLitAt (j.get "object") "whatsapp_business_account" "object"
  let rawEntry ← zodArrAt (j.get "entry") "entry"
  let entry ← parseList MetaEntrySchema.parse rawEntry
  if entry = [] then .error "entry" else
  .ok { object, entry }

/-- `MetaAdapter.normalizePhone`: strip every non-digit character. -/
def MetaAdapter.normalizePhone (phone : String) : String :=
  String.mk (phone.data.filter Char.isDigit)

/-- `MetaAdapter.normalize`: extract the first entry / change / message /
contact of the nested payload and map it to the canonical create
projection; the guards throw plain `Error`s (modelled as `.error`) when
a level is empty.  The timestamp is
`new Date(parseInt(message.timestamp) * 1000)` - a seconds epoch turned
into milliseconds - and `isFromMe` is the constant `false`. -/
def MetaAdapter.normalize (p : MetaWebhookPayload) : Except String CreateNormalizedMessage :=
  match p.entry.head? with
  | none => .error "Payload Meta sem entry"
  | some entry =>
    match entry.changes.head? with
    | none => .error "Payload Meta sem changes"
    | some change =>
      let value := change.value
      match value.messages.head?, value.contacts.head? with
      | none, _ => .error "Payload Meta sem messages"
      | some _, none => .error "Payload Meta sem contacts"
      | some message, some contact =>
        .ok { externalId := message.id
              provider := Provider.meta
              contact := { phone := MetaAdapter.normalizePhone message.from_
                           name := contact.profileName }
              message := { type := MessageType.text
                           content := message.text.body }
              timestamp := jsNewDate ((jsParseInt message.timestamp).map intToRatTimes1000)
              isFromMe := false }

/-- `MetaAdapter.validate`: `safeParse`, throwing a
`WebhookValidationError` for the `meta` provider on failure. -/
def MetaAdapter.validate (j : Json) : Except ThrownError MetaWebhookPayload :=
  match MetaWebhookSchema.safeParse j with
  | .error issue => .error (.validationError Provider.meta issue)
  | .ok p => .ok p

/-- A persisted database row (the Prisma `Message` record of
`prisma/schema.prisma`, as used by `PrismaMessageRepository`): the
canonical message flattened into scalar columns, with the nullable
classification columns `intent` / `intentConfidence` and a unique
constraint on `(provider, externalId)`. -/
structure MessageRecord where
  id : String
  externalId : String
  provider : Provider
  contactPhone : String
  contactName : String
  messageType : MessageType
  messageContent : String
  timestamp : Option ℤ
  receivedAt : ℤ
  isFromMe : Bool
  intent : Option String
  intentConfidence : Option ℚ
deriving DecidableEq

/-- The database table: persisted rows in insertion order. -/
abbrev Repo := List MessageRecord

/-- The `(provider, externalId)` natural-key match used by the
`provider_externalId` unique constraint. -/
def matchesKey (provider : Provider) (externalId : String) (r : MessageRecord) : Bool :=
  decide (r.provider = provider) && decide (r.externalId = externalId)

/-- `PrismaMessageRepository.mapToEntity`: map a database row to the
domain entity; the classification is attached only when `record.intent`
is truthy (non-null and non-empty) and `record.intentConfidence` is
non-null, mirroring `if (record.intent && record.intentConfidence !== null)`. -/
def mapToEntity (r : MessageRecord) : NormalizedMessage :=
  { id := r.id
    externalId := r.externalId
    provider := r.provider
    contact := { phone := r.contactPhone, name := r.contactName }
    message := { type := r.messageType, content := r.messageContent }
    timestamp := r.timestamp
    receivedAt := r.receivedAt
    isFromMe := r.isFromMe
    classification :=
      match r.intent, r.intentConfidence with
      | some i, some c => if i = "" then none else some { intent := i, confidence := c }
      | _, _ => none }

/-- Deterministic stand-in for the database-generated row id (a UUID in
the real store): fresh with respect to the row count. -/
def genRowId (repo : Repo) : String :=
  "row-" ++ toString repo.length

/-- The row written by `prisma.message.create` for a create projection:
the projection's columns, the database-assigned id, the `receivedAt`
time of acceptance, and null classification columns. -/
def newMessageRecord (repo : Repo) (data : CreateNormalizedMessage) (receivedAt : ℤ) :
    MessageRecord :=
  { id := genRowId repo
    externalId := data.externalId
    provider := data.provider
    contactPhone := data.contact.phone
    contactName := data.contact.name
    messageType := data.message.type
    messageContent := data.message.content
    timestamp := data.timestamp
    receivedAt := receivedAt
    isFromMe := data.isFromMe
    intent := none
    intentConfidence := none }

/-- `prisma.message.create`: insert a new row, enforcing the
`(provider, externalId)` unique constraint; the violation is the Prisma
P2002 `Unique constraint failed` error. -/
def prismaMessageCreate (repo : Repo) (data : CreateNormalizedMessage) (receivedAt : ℤ) :
    Except ThrownError (MessageRecord × Repo) :=
  if (repo.find? (matchesKey data.provider data.externalId)).isSome then
    .error (.jsError "Unique constraint failed on the fields: (provider,externalId)")
  else
    .ok (newMessageRecord repo data receivedAt, repo ++ [newMessageRecord repo data receivedAt])

/-- `PrismaMessageRepository.save`: create the row and map it to the
entity, wrapping any failure as `ProcessingError('save_message')`. -/
def PrismaMessageRepository.save (repo : Repo) (data : CreateNormalizedMessage) (receivedAt : ℤ) :
    Except ThrownError (NormalizedMessage × Repo) :=
  match prismaMessageCreate repo data receivedAt with
  | .error e => .error (.processingError "save_message" e)
  | .ok (r, repo') => .ok (mapToEntity r, repo')

/-- `PrismaMessageRepository.findById`: `findUnique` on the primary key,
mapped to the entity. -/
def PrismaMessageRepository.findById (repo : Repo) (id : String) : Option NormalizedMessage :=
  (repo.find? (fun r => decide (r.id = id))).map mapToEntity

/-- `PrismaMessageRepository.findByExternalId`: `findUnique` on the
`provider_externalId` natural key, mapped to the entity. -/
def PrismaMessageRepository.findByExternalId (repo : Repo) (provider : Provider) (externalId : String) :
    Option NormalizedMessage :=
  (repo.find? (matchesKey provider externalId)).map mapToEntity

/-- Write the classification columns of a row
(`data: { intent: ..., intentConfidence: ... }` of `prisma.message.update`). -/
def applyClassification (c : Classification) (r : MessageRecord) : MessageRecord :=
  { r with intent := some c.intent, intentConfidence := some c.confidence }

/-- `prisma.message.update` on `where: { id }`: fails with the Prisma
P2025 error when no row has the id, otherwise updates the row's
classification columns. -/
def prismaMessageUpdate (repo : Repo) (id : String) (c : Classification) :
    Except ThrownError (MessageRecord × Repo) :=
  match repo.find? (fun r => decide (r.id = id)) with
  | none => .error (.jsError "Record to update not found.")
  | some r =>
      .ok (applyClassification c r,
           repo.map (fun x => if x.id = id then applyClassification c x else x))

/-- `PrismaMessageRepository.updateClassification`: update the row and
map it to the entity, wrapping any failure as
`ProcessingError('update_classification')`. -/
def PrismaMessageRepository.updateClassification (repo : Repo) (id : String) (c : Classification) :
    Except ThrownError (NormalizedMessage × Repo) :=
  match prismaMessageUpdate repo id c with
  | .error e => .error (.processingError "update_classification" e)
  | .ok (r, repo') => .ok (mapToEntity r, repo')

/-- Output of `ProcessWebhookUseCase.execute`
(`ProcessWebhookOutput`). -/
structure ProcessWebhookOutput where
  message : NormalizedMessage
  isDuplicate : Bool
deriving DecidableEq

/-- Adapter dispatch of the initialized registry
(`initializeAdapters` registers `ZApiAdapter` and `MetaAdapter`, and
`AdapterRegistry.getAdapter` resolves the provider key): validate the
payload with the provider's schema and normalize it.  A plain `Error`
thrown by `MetaAdapter.normalize` propagates unwrapped (`execute` does
not guard the normalize step). -/
def validateAndNormalize (provider : Provider) (payload : Json) :
    Except ThrownError CreateNormalizedMessage :=
  match provider with
  | .zapi =>
    match ZApiAdapter.validate payload with
    | .error e => .error e
    | .ok p => .ok (ZApiAdapter.normalize p)
  | .meta =>
    match MetaAdapter.validate payload with
    | .error e => .error e
    | .ok p =>
      match MetaAdapter.normalize p with
      | .error msg => .error (.jsError msg)
      | .ok d => .ok d

/-- `ProcessWebhookUseCase.execute`, with the two repository snapshots
made explicit: the duplicate pre-check (step 4) reads `findRepo` and the
save (step 5) runs against `saveRepo`.  The sequential, single-request
execution is `findRepo = saveRepo` (see `ProcessWebhookUseCase.execute`
below); distinct snapshots model a concurrent insert committed between
the two awaited repository calls.  A save failure is wrapped as
`ProcessingError('save_message', error)` - on top of the repository's
own `ProcessingError('save_message')` wrapping. -/
def ProcessWebhookUseCase.executeInterleaved (findRepo saveRepo : Repo) (receivedAt : ℤ)
    (provider : Provider) (payload : Json) :
    Except ThrownError (ProcessWebhookOutput × Repo) :=
  match validateAndNormalize provider payload with
  | .error e => .error e
  | .ok normalizedData =>
    match PrismaMessageRepository.findByExternalId findRepo normalizedData.provider normalizedData.externalId with
    | some existingMessage => .ok ({ message := existingMessage, isDuplicate := true }, saveRepo)
    | none =>
      match PrismaMessageRepository.save saveRepo normalizedData receivedAt with
      | .error e => .error (.processingError "save_message" e)
      | .ok (savedMessage, repo') => .ok ({ message := savedMessage, isDuplicate := false }, repo')

/-- `ProcessWebhookUseCase.execute` for a single request running alone:
both repository steps see the same database state. -/
def ProcessWebhookUseCase.execute (repo : Repo) (receivedAt : ℤ)
    (provider : Provider) (payload : Json) :
    Except ThrownError (ProcessWebhookOutput × Repo) :=
  ProcessWebhookUseCase.executeInterleaved repo repo receivedAt provider payload

/-- Decidable equality of `Except` values (not derived in core). -/
instance exceptDecEq {ε α : Type} [DecidableEq ε] [DecidableEq α] :
    DecidableEq (Except ε α) := fun x y =>
  match x, y with
  | .error a, .error b =>
      if h : a = b then .isTrue (by rw [h]) else .isFalse (by simp [h])
  | .ok a, .ok b =>
      if h : a = b then .isTrue (by rw [h]) else .isFalse (by simp [h])
  | .error _, .ok _ => .isFalse (by simp)
  | .ok _, .error _ => .isFalse (by simp)

/-- Result of one run of `ClassifyMessageUseCase.execute`: the returned
(or thrown) value, the repository state afterwards, and how many times
the injected `ClassificationService.classify` contract was invoked. -/
structure ClassifyRun where
  result : Except ThrownError (NormalizedMessage × Classification)
  repo : Repo
  classifierCalls : ℕ
deriving DecidableEq

/-- `ClassifyMessageUseCase.execute`: find the message by id (failing
with `ProcessingError('find_message')`), short-circuit when a
classification is already present, otherwise invoke the classifier
contract on `message.message.content` (failures wrapped as
`ProcessingError('classify_message')`) and persist the result via
`updateClassification` (failures wrapped as
`ProcessingError('update_classification')`). -/
def ClassifyMessageUseCase.execute (repo : Repo)
    (classify : String → Except ThrownError Classification) (messageId : String) : ClassifyRun :=
  match PrismaMessageRepository.findById repo messageId with
  | none =>
      { result := .error (.processingError "find_message"
          (.jsError ("Mensagem não encontrada: " ++ messageId)))
        repo := repo
        classifierCalls := 0 }
  | some message =>
    match message.classification with
    | some c =>
        { result := .ok (message, c), repo := repo, classifierCalls := 0 }
    | none =>
      match classify message.message.content with
      | .error e =>
          { result := .error (.processingError "classify_message" e)
            repo := repo
            classifierCalls := 1 }
      | .ok classification =>
        match PrismaMessageRepository.updateClassification repo messageId classification with
        | .error e =>
            { result := .error (.processingError "update_classification" e)
              repo := repo
              classifierCalls := 1 }
        | .ok (updatedMessage, repo') =>
            { result := .ok (updatedMessage, classification)
              repo := repo'
              classifierCalls := 1 }

/-- `ClassifyMessageUseCase.classifyContent`: stateless pass-through to
the classifier contract, wrapping failures as
`ProcessingError('classify_content')`. -/
def ClassifyMessageUseCase.classifyContent
    (classify : String → Except ThrownError Classification) (content : String) :
    Except ThrownError Classification :=
  match classify content with
  | .error e => .error (.processingError "classify_content" e)
  | .ok c => .ok c

/-- The fixed intent categories known to the system (`validIntents` in
`ClaudeService.parseClassificationResponse`). -/
def validIntents : List String :=
  ["interesse_produto", "duvida_produto", "suporte_tecnico", "reclamacao", "saudacao", "outro"]

/-- `ClaudeService.parseClassificationResponse`, modelled from the point
where the JSON object has been extracted from the model's reply and
decoded (`JSON.parse(jsonMatch[0])` - the string-level regex match and
JSON lexing are outside the embedding): require a string `intent` and a
numeric `confidence`, reject a confidence outside `[0, 1]`, and coerce
an unrecognized intent to `"outro"`; every failure is wrapped as
`ProcessingError('parse_classification')`. -/
def ClaudeService.parseClassificationResponse (parsed : Json) : Except ThrownError Classification :=
  match parsed.get "intent" with
  | some (.str intent) =>
    match parsed.get "confidence" with
    | some (.num confidence) =>
      if confidence < 0 ∨ confidence > 1 then
        .error (.processingError "parse_classification"
          (.jsError "Campo confidence deve estar entre 0 e 1"))
      else
        .ok { intent := if validIntents.contains intent then intent else "outro"
              confidence := confidence }
    | _ => .error (.processingError "parse_classification"
             (.jsError "Campo confidence ausente ou inválido"))
  | _ => .error (.processingError "parse_classification"
           (.jsError "Campo intent ausente ou inválido"))

/-- `ClaudeService.classify`, as a function of the (decoded) JSON object
found in the LLM's reply: parse errors are `ProcessingError`s and are
rethrown unchanged by the surrounding catch. -/
def ClaudeService.classify (parsedResponse : Json) : Except ThrownError Classification :=
  match ClaudeService.parseClassificationResponse parsedResponse with
  | .error e => .error e
  | .ok c => .ok c

/-- HTTP outcome of the `POST /webhook/:provider` handler: the success
body for a new message, the success body for a duplicate, or the error
forwarded to `next(error)`. -/
inductive HttpResponse where
  | okNew (messageId : String) (provider : Provider) (intent : String) (confidence : ℚ)
  | okDuplicate (messageId : String)
  | nextError (e : ThrownError)
deriving DecidableEq

/-- Result of one run of the `POST /webhook/:provider` handler: the
response, the repository state afterwards, and how many times the
classifier contract and `updateClassification` were invoked. -/
structure HandlerRun where
  response : HttpResponse
  repo : Repo
  classifierCalls : ℕ
  updateClassificationCalls : ℕ
deriving DecidableEq

/-- `isValidProvider` of `webhookRoutes.ts`: membership of the route
parameter in `SUPPORTED_PROVIDERS`. -/
def parseProviderParam (s : String) : Option Provider :=
  if s = "zapi" then some Provider.zapi
  else if s = "meta" then some Provider.meta
  else none

/-- The `POST /webhook/:provider` handler of `createWebhookRoutes`:
validate the provider parameter (`UnknownProviderError` otherwise), run
`ProcessWebhookUseCase.execute`, return the duplicate acknowledgment
without classifying when `isDuplicate`, and otherwise classify the new
message's content inline (`classifyContent`) and persist the
classification with `updateClassification` before responding. -/
def webhookPostHandler (repo : Repo)
    (classify : String → Except ThrownError Classification) (receivedAt : ℤ)
    (providerParam : Option String) (body : Json) : HandlerRun :=
  match providerParam with
  | none => { response := .nextError (.unknownProviderError none)
              repo := repo, classifierCalls := 0, updateClassificationCalls := 0 }
  | some ps =>
    match parseProviderParam ps with
    | none => { response := .nextError (.unknownProviderError (some ps))
                repo := repo, classifierCalls := 0, updateClassificationCalls := 0 }
    | some provider =>
      match ProcessWebhookUseCase.execute repo receivedAt provider body with
      | .error e => { response := .nextError e
                      repo := repo, classifierCalls := 0, updateClassificationCalls := 0 }
      | .ok (result, repo1) =>
        if result.isDuplicate then
          { response := .okDuplicate result.message.id
            repo := repo1, classifierCalls := 0, updateClassificationCalls := 0 }
        else
          match ClassifyMessageUseCase.classifyContent classify result.message.message.content with
          | .error e => { response := .nextError e
                          repo := repo1, classifierCalls := 1, updateClassificationCalls := 0 }
          | .ok classification =>
            match PrismaMessageRepository.updateClassification repo1 result.message.id classification with
            | .error e => { response := .nextError e
                            repo := repo1, classifierCalls := 1, updateClassificationCalls := 1 }
            | .ok (_, repo2) =>
                { response := .okNew result.message.id result.message.provider
                    classification.intent classification.confidence
                  repo := repo2, classifierCalls := 1, updateClassificationCalls := 1 }

/-- Inversion of a successful `Except` bind. -/
theorem except_bind_ok {ε α β : Type} (x : Except ε α) (f : α → Except ε β) (b : β) :
    x >>= f = .ok b ↔ ∃ a, x = .ok a ∧ f a = .ok b := by
  cases x <;> simp [Bind.bind, Except.bind]

/-- Every element of a successfully parsed list comes from a successful
element parse. -/
theorem parseList_mem {α : Type} (f : Json → Except String α) :
    ∀ (l : List Json) (ys : List α), parseList f l = .ok ys →
      ∀ y ∈ ys, ∃ x, f x = .ok y := by
  intro l
  induction l with
  | nil =>
      intro ys h y hy
      simp only [parseList] at h
      cases h
      simp at hy
  | cons x xs ih =>
      intro ys h y hy
      simp only [parseList, except_bind_ok] at h
      obtain ⟨a, ha, rest, hrest, hcons⟩ := h
      cases hcons
      rcases List.mem_cons.mp hy with hy | hy
      · exact ⟨x, by rw [ha, hy]⟩
      · exact ih rest hrest y hy

/-- A value accepted by a `z.string().min(1)` check is non-empty. -/
theorem zodStrMin1At_ok_ne {v : Option Json} {path s : String}
    (h : zodStrMin1At v path = .ok s) : s ≠ "" := by
  unfold zodStrMin1At at h
  split at h
  · split at h
    · cases h
    · cases h; assumption
  · cases h

/-- Truncation toward zero is the identity on integers. -/
theorem ratTrunc_intCast (k : ℤ) : ratTrunc (k : ℚ) = k := by
  unfold ratTrunc
  simp [Rat.num_intCast, Rat.den_intCast, Int.tdiv_one]

/-- The `Date` constructor on an (optional) integer number of
milliseconds scaled by 1000 keeps the exact integer value. -/
theorem jsNewDate_int_mul (o : Option ℤ) :
    jsNewDate (o.map intToRatTimes1000) = o.map fun n => n * 1000 := by
  cases o with
  | none => rfl
  | some n =>
      simp only [Option.map_some', jsNewDate]
      have h : intToRatTimes1000 n = ((n * 1000 : ℤ) : ℚ) := by
        unfold intToRatTimes1000; push_cast; ring
      rw [h, ratTrunc_intCast]

/-- Updating the classification columns preserves the row id. -/
theorem applyClassification_id (c : Classification) (r : MessageRecord) :
    (applyClassification c r).id = r.id := rfl

/-- Finding a row by id after a classification update finds the updated
image of the row found before. -/
theorem find?_after_update (repo : Repo) (id : String) (c : Classification) :
    (repo.map fun x => if x.id = id then applyClassification c x else x).find?
      (fun r => decide (r.id = id)) =
    (repo.find? fun r => decide (r.id = id)).map
      (fun x => if x.id = id then applyClassification c x else x) := by
  rw [List.find?_map]
  have hpf : ((fun r : MessageRecord => decide (r.id = id)) ∘
      fun x => if x.id = id then applyClassification c x else x) =
      fun r : MessageRecord => decide (r.id = id) := by
    funext x
    by_cases h : x.id = id <;> simp [h, applyClassification]
  rw [hpf]

/-- A `text` object accepted by the optional `ZApiTextSchema` has a
non-empty `message` (the `min(1)` bound). -/
theorem zapiTextParseOpt_ok_some {v : Option Json} {t : ZApiText}
    (h : ZApiTextSchema.parseOpt v = .ok (some t)) : t.message ≠ "" := by
  unfold ZApiTextSchema.parseOpt at h
  cases v with
  | none => simp at h
  | some o =>
    cases o with
    | obj fields =>
        simp only [except_bind_ok] at h
        obtain ⟨s, hs, hok⟩ := h
        simp only [Except.ok.injEq, Option.some.injEq] at hok
        subst hok
        exact zodStrMin1At_ok_ne hs
    | null => simp at h
    | bool b => simp at h
    | num q => simp at h
    | str s => simp at h
    | arr xs => simp at h

/-- The `text` component of a payload accepted by `ZApiWebhookSchema`
was itself accepted by the optional `ZApiTextSchema`. -/
theorem zapi_safeParse_text {raw : Json} {p : ZApiWebhookPayload}
    (h : ZApiWebhookSchema.safeParse raw = .ok p) :
    ZApiTextSchema.parseOpt (raw.get "text") = .ok p.text := by
  unfold ZApiWebhookSchema.safeParse at h
  simp only [except_bind_ok] at h
  obtain ⟨i1, h1, i2, h2, i3, h3, i4, h4, i5, h5, i6, h6, i7, h7, i8, h8, i9, h9,
    i10, h10, i11, h11, i12, h12, i13, h13, i14, h14, i15, h15, hp⟩ := h
  injection hp with hp
  subst hp
  exact h14

/-- A `text` object accepted by `MetaTextSchema` has a non-empty `body`
(the `min(1)` bound). -/
theorem metaText_parse_body {v : Option Json} {t : MetaText}
    (h : MetaTextSchema.parse v = .ok t) : t.body ≠ "" := by
  unfold MetaTextSchema.parse at h
  cases v with
  | none => simp at h
  | some o =>
    cases o with
    | obj fields =>
        simp only [except_bind_ok] at h
        obtain ⟨s, hs, hok⟩ := h
        injection hok with hok
        subst hok
        exact zodStrMin1At_ok_ne hs
    | null => simp at h
    | bool b => simp at h
    | num q => simp at h
    | str s => simp at h
    | arr xs => simp at h

/-- A message accepted by `MetaMessageSchema` has a non-empty text
body. -/
theorem metaMessage_parse_inv {j : Json} {m : MetaMessage}
    (h : MetaMessageSchema.parse j = .ok m) : m.text.body ≠ "" := by
  unfold MetaMessageSchema.parse at h
  cases j with
  | obj fields =>
      simp only [except_bind_ok] at h
      obtain ⟨f, hf, i, hi, ts, hts, ty, hty, tx, htx, hok⟩ := h
      injection hok with hok
      subst hok
      exact metaText_parse_body htx
  | null => simp at h
  | bool b => simp at h
  | num q => simp at h
  | str s => simp at h
  | arr xs => simp at h

/-- Facts guaranteed by a successful `MetaValueSchema` parse: non-empty
`messages` and `contacts` (the `min(1)` bounds) and non-empty message
bodies. -/
theorem metaValue_parse_inv {v : Option Json} {val : MetaValue}
    (h : MetaValueSchema.parse v = .ok val) :
    val.messages ≠ [] ∧ val.contacts ≠ [] ∧ ∀ m ∈ val.messages, m.text.body ≠ "" := by
  unfold MetaValueSchema.parse at h
  cases v with
  | none => simp at h
  | some o =>
    cases o with
    | obj fields =>
        simp only [except_bind_ok] at h
        obtain ⟨mp, hmp, md, hmd, rc, hrc, cs, hcs, rm, hrm, ms, hms, hrest⟩ := h
        split at hrest
        · cases hrest
        · split at hrest
          · cases hrest
          · injection hrest with hrest
            subst hrest
            refine ⟨by assumption, by assumption, ?_⟩
            intro m hm
            obtain ⟨x, hx⟩ := parseList_mem _ rm ms hms m hm
            exact metaMessage_parse_inv hx
    | null => simp at h
    | bool b => simp at h
    | num q => simp at h
    | str s => simp at h
    | arr xs => simp at h

/-- Facts guaranteed by a successful `MetaChangeSchema` parse. -/
theorem metaChange_parse_inv {j : Json} {ch : MetaChange}
    (h : MetaChangeSchema.parse j = .ok ch) :
    ch.value.messages ≠ [] ∧ ch.value.contacts ≠ [] ∧
      ∀ m ∈ ch.value.messages, m.text.body ≠ "" := by
  unfold MetaChangeSchema.parse at h
  cases j with
  | obj fields =>
      simp only [except_bind_ok] at h
      obtain ⟨vv, hvv, fl, hfl, hok⟩ := h
      injection hok with hok
      subst hok
      exact metaValue_parse_inv hvv
  | null => simp at h
  | bool b => simp at h
  | num q => simp at h
  | str s => simp at h
  | arr xs => simp at h

/-- Facts guaranteed by a successful `MetaEntrySchema` parse: non-empty
`changes` (the `min(1)` bound) whose elements satisfy the change
facts. -/
theorem metaEntry_parse_inv {j : Json} {e : MetaEntry}
    (h : MetaEntrySchema.parse j = .ok e) :
    e.changes ≠ [] ∧ ∀ ch ∈ e.changes,
      ch.value.messages ≠ [] ∧ ch.value.contacts ≠ [] ∧
        ∀ m ∈ ch.value.messages, m.text.body ≠ "" := by
  unfold MetaEntrySchema.parse at h
  cases j with
  | obj fields =>
      simp only [except_bind_ok] at h
      obtain ⟨i, hi, rch, hrch, chs, hchs, hrest⟩ := h
      split at hrest
      · cases hrest
      · injection hrest with hrest
        subst hrest
        refine ⟨by assumption, ?_⟩
        intro ch hch
        obtain ⟨x, hx⟩ := parseList_mem _ rch chs hchs ch hch
        exact metaChange_parse_inv hx
  | null => simp at h
  | bool b => simp at h
  | num q => simp at h
  | str s => simp at h
  | arr xs => simp at h

/-- Facts guaranteed by a successful `MetaWebhookSchema` parse:
non-empty `entry` (the `min(1)` bound) whose elements satisfy the entry
facts. -/
theorem meta_safeParse_inv {raw : Json} {p : MetaWebhookPayload}
    (h : MetaWebhookSchema.safeParse raw = .ok p) :
    p.entry ≠ [] ∧ ∀ e ∈ p.entry,
      e.changes ≠ [] ∧ ∀ ch ∈ e.changes,
        ch.value.messages ≠ [] ∧ ch.value.contacts ≠ [] ∧
          ∀ m ∈ ch.value.messages, m.text.body ≠ "" := by
  unfold MetaWebhookSchema.safeParse at h
  simp only [except_bind_ok] at h
  obtain ⟨ob, hob, re, hre, es, hes, hrest⟩ := h
  split at hrest
  · cases hrest
  · injection hrest with hrest
    subst hrest
    refine ⟨by assumption, ?_⟩
    intro e he
    obtain ⟨x, hx⟩ := parseList_mem _ re es hes e he
    exact metaEntry_parse_inv hx

/-- Normalization of a payload accepted by `MetaWebhookSchema` succeeds
and produces the canonical projection of the first message and first
contact of the first change of the first entry. -/
theorem meta_validated_normalize {raw : Json} {p : MetaWebhookPayload}
    (h : MetaWebhookSchema.safeParse raw = .ok p) :
    ∃ entry change msg contact,
      p.entry.head? = some entry ∧
      entry.changes.head? = some change ∧
      change.value.messages.head? = some msg ∧
      change.value.contacts.head? = some contact ∧
      msg.text.body ≠ "" ∧
      MetaAdapter.normalize p = .ok
        { externalId := msg.id
          provider := Provider.meta
          contact := { phone := MetaAdapter.normalizePhone msg.from_
                       name := contact.profileName }
          message := { type := MessageType.text, content := msg.text.body }
          timestamp := jsNewDate ((jsParseInt msg.timestamp).map intToRatTimes1000)
          isFromMe := false } := by
  obtain ⟨hne, hall⟩ := meta_safeParse_inv h
  cases hE : p.entry with
  | nil => exact absurd hE hne
  | cons e es =>
    have he : e ∈ p.entry := by rw [hE]; exact List.mem_cons_self e es
    obtain ⟨hchne, hchall⟩ := hall e he
    cases hC : e.changes with
    | nil => exact absurd hC hchne
    | cons ch chs =>
      have hch : ch ∈ e.changes := by rw [hC]; exact List.mem_cons_self ch chs
      obtain ⟨hmne, hcne, hbody⟩ := hchall ch hch
      cases hM : ch.value.messages with
      | nil => exact absurd hM hmne
      | cons msg msgs =>
        cases hK : ch.value.contacts with
        | nil => exact absurd hK hcne
        | cons contact contacts =>
          have hm : msg ∈ ch.value.messages := by rw [hM]; exact List.mem_cons_self msg msgs
          refine ⟨e, ch, msg, contact, rfl, by rw [hC]; rfl,
            by rw [hM]; rfl, by rw [hK]; rfl, hbody msg hm, ?_⟩
          unfold MetaAdapter.normalize
          rw [hE]
          simp only [List.head?_cons]
          rw [hC]
          simp only [List.head?_cons]
          rw [hM, hK]
          simp only [List.head?_cons]

/-- The scenario-A payload of the specification, exactly as written
there: `{messageId:"m1", phone:"+55 (11) 98888-8888",
text:{message:"hello"}, momment:1700000000000, fromMe:false,
senderName:"Ana"}`. -/
def scenarioAPayload : Json := .obj
  [("messageId", .str "m1"),
   ("phone", .str "+55 (11) 98888-8888"),
   ("text", .obj [("message", .str "hello")]),
   ("momment", .num 1700000000000),
   ("fromMe", .bool false),
   ("senderName", .str "Ana")]

/-- The scenario-A payload completed with the fields that
`ZApiWebhookSchema` requires (`instanceId`, `status`, `chatName`,
`type`). -/
def scenarioAPayloadFull : Json := .obj
  [("instanceId", .str "inst-1"),
   ("messageId", .str "m1"),
   ("phone", .str "+55 (11) 98888-8888"),
   ("fromMe", .bool false),
   ("momment", .num 1700000000000),
   ("status", .str "RECEIVED"),
   ("chatName", .str "Ana"),
   ("senderName", .str "Ana"),
   ("type", .str "ReceivedCallback"),
   ("text", .obj [("message", .str "hello")])]

/-- The validated form of `scenarioAPayloadFull`. -/
def scenarioAParsed : ZApiWebhookPayload :=
  { instanceId := "inst-1"
    messageId := "m1"
    phone := "+55 (11) 98888-8888"
    fromMe := false
    momment := 1700000000000
    status := "RECEIVED"
    chatName := "Ana"
    senderName := "Ana"
    senderPhoto := none
    participantPhone := none
    photo := none
    broadcast := none
    type := "ReceivedCallback"
    text := some { message := "hello" }
    image := none }

/-- The canonical create projection of scenario A. -/
def scenarioAData : CreateNormalizedMessage :=
  { externalId := "m1"
    provider := Provider.zapi
    contact := { phone := "5511988888888", name := "Ana" }
    message := { type := MessageType.text, content := "hello" }
    timestamp := some 1700000000000
    isFromMe := false }

/-- A persisted row carrying scenario A's `(zapi, "m1")` natural key. -/
def scenarioARow : MessageRecord :=
  { id := "row-0"
    externalId := "m1"
    provider := Provider.zapi
    contactPhone := "5511988888888"
    contactName := "Ana"
    messageType := MessageType.text
    messageContent := "hello"
    timestamp := some 1700000000000
    receivedAt := 0
    isFromMe := false
    intent := none
    intentConfidence := none }

/-- A well-formed Meta webhook payload fixture. -/
def metaSamplePayload : Json := .obj
  [("object", .str "whatsapp_business_account"),
   ("entry", .arr [ .obj
     [("id", .str "entry-1"),
      ("changes", .arr [ .obj
        [("value", .obj
           [("messaging_product", .str "whatsapp"),
            ("metadata", .obj [("display_phone_number", .str "15550000000"),
                               ("phone_number_id", .str "phid-1")]),
            ("contacts", .arr [ .obj [("profile", .obj [("name", .str "Bob")]),
                                      ("wa_id", .str "15551111111")] ]),
            ("messages", .arr [ .obj
              [("from", .str "15551111111"),
               ("id", .str "wamid-1"),
               ("timestamp", .str "1700000000"),
               ("type", .str "text"),
               ("text", .obj [("body", .str "hi")])] ])]),
         ("field", .str "messages")] ])] ])]

/-- The validated form of `metaSamplePayload`. -/
def metaSampleParsed : MetaWebhookPayload :=
  { object := "whatsapp_business_account"
    entry := [
      { id := "entry-1"
        changes := [
          { value :=
              { messaging_product := "whatsapp"
                metadata := { display_phone_number := "15550000000"
                              phone_number_id := "phid-1" }
                contacts := [{ profileName := "Bob", wa_id := "15551111111" }]
                messages := [{ from_ := "15551111111"
                               id := "wamid-1"
                               timestamp := "1700000000"
                               type := "text"
                               text := { body := "hi" } }] }
            field := "messages" }] }] }

/-- A validated Z-API payload whose `senderName` is the empty string. -/
def emptySenderParsed : ZApiWebhookPayload :=
  { scenarioAParsed with senderName := "", chatName := "Maria" }

/-- The raw payload corresponding to `emptySenderParsed`. -/
def emptySenderPayload : Json := .obj
  [("instanceId", .str "inst-1"),
   ("messageId", .str "m1"),
   ("phone", .str "+55 (11) 98888-8888"),
   ("fromMe", .bool false),
   ("momment", .num 1700000000000),
   ("status", .str "RECEIVED"),
   ("chatName", .str "Maria"),
   ("senderName", .str ""),
   ("type", .str "ReceivedCallback"),
   ("text", .obj [("message", .str "hello")])]

/-- A row that already carries a classification. -/
def classifiedRow : MessageRecord :=
  { scenarioARow with intent := some "saudacao", intentConfidence := some (1 : ℚ) }

/-- A deterministic classifier contract fixture. -/
def sampleClassifier : String → Except ThrownError Classification :=
  fun _ => .ok { intent := "outro", confidence := (1 : ℚ) }

/-- A decoded Claude reply whose confidence exceeds the upper bound. -/
def badConfidenceResponse : Json := .obj
  [("intent", .str "saudacao"), ("confidence", .num 2)]

/-- C3 (counterexample): applying the Z-API adapter's `validate` to the
exact scenario-A payload of the specification does not reach
`normalize`: the payload lacks the schema-required `instanceId`,
`status`, `chatName` and `type` fields, so `validate` throws a
`WebhookValidationError` (first reported path: `instanceId`). -/
theorem c3_scenario_a_counterexample :
    ZApiAdapter.validate scenarioAPayload =
      .error (.validationError Provider.zapi "instanceId") := by decide

/-- C3 (amended): the scenario-A payload completed with the fields
required by `ZApiWebhookSchema` (`instanceId`, `status`, `chatName`,
`type: "ReceivedCallback"`) validates, and `normalize` yields externalId
`"m1"`, digits-only phone `"5511988888888"`, contact name `"Ana"`, text
content `"hello"` of type text, and `isFromMe = false`. -/
theorem c3_scenario_a_amended :
    ZApiAdapter.validate scenarioAPayloadFull = .ok scenarioAParsed ∧
    (ZApiAdapter.normalize scenarioAParsed).externalId = "m1" ∧
    (ZApiAdapter.normalize scenarioAParsed).contact.phone = "5511988888888" ∧
    (ZApiAdapter.normalize scenarioAParsed).contact.name = "Ana" ∧
    (ZApiAdapter.normalize scenarioAParsed).message.type = MessageType.text ∧
    (ZApiAdapter.normalize scenarioAParsed).message.content = "hello" ∧
    (ZApiAdapter.normalize scenarioAParsed).isFromMe = false := by decide

/-- C9: `MetaAdapter.normalize` sets `isFromMe` to `false`
unconditionally - whenever it returns a projection at all (in
particular for every validated Meta payload), that projection has
`isFromMe = false`, regardless of any field of the payload. -/
theorem c9_meta_normalize_isFromMe_false (p : MetaWebhookPayload)
    (m : CreateNormalizedMessage) (h : MetaAdapter.normalize p = .ok m) :
    m.isFromMe = false := by
  unfold MetaAdapter.normalize at h
  split at h
  · cases h
  split at h
  · cases h
  dsimp only [] at h
  split at h
  all_goals first
    | (injection h with h; subst h; rfl)
    | cases h

/-- C9 (witness): the sample Meta payload normalizes with
`isFromMe = false`. -/
theorem c9_meta_normalize_isFromMe_false_witness :
    MetaAdapter.normalize metaSampleParsed = .ok
      { externalId := "wamid-1"
        provider := Provider.meta
        contact := { phone := "15551111111", name := "Bob" }
        message := { type := MessageType.text, content := "hi" }
        timestamp := jsNewDate ((jsParseInt "1700000000").map intToRatTimes1000)
        isFromMe := false } ∧
    ({ externalId := "wamid-1"
       provider := Provider.meta
       contact := { phone := "15551111111", name := "Bob" }
       message := { type := MessageType.text, content := "hi" }
       timestamp := jsNewDate ((jsParseInt "1700000000").map intToRatTimes1000)
       isFromMe := false } : CreateNormalizedMessage).isFromMe = false :=
  ⟨rfl, c9_meta_normalize_isFromMe_false metaSampleParsed _ rfl⟩

/-- C10: in `ZApiAdapter.normalize`, the contact display name is
`senderName || chatName` under JavaScript truthiness, so for every
validated payload whose `senderName` is the empty string the normalized
contact name equals `chatName`. -/
theorem c10_empty_sender_falls_back_to_chatName (raw : Json) (p : ZApiWebhookPayload)
    (_hv : ZApiWebhookSchema.safeParse raw = .ok p) (hs : p.senderName = "") :
    (ZApiAdapter.normalize p).contact.name = p.chatName := by
  simp [ZApiAdapter.normalize, jsOrStr, hs]

/-- C10 (witness): a validated payload with empty `senderName` and
`chatName = "Maria"` normalizes with contact name `"Maria"`. -/
theorem c10_empty_sender_falls_back_to_chatName_witness :
    ZApiWebhookSchema.safeParse emptySenderPayload = .ok emptySenderParsed ∧
    emptySenderParsed.senderName = "" ∧
    (ZApiAdapter.normalize emptySenderParsed).contact.name = "Maria" :=
  ⟨by decide, by decide,
   by rw [c10_empty_sender_falls_back_to_chatName emptySenderPayload emptySenderParsed
       (by decide) (by decide)]; rfl⟩

/-- C1: idempotency of webhook processing.  For every payload accepted
and normalized by the provider's adapter whose `(provider, externalId)`
key is not yet persisted, running `ProcessWebhookUseCase.execute` twice
against the same repository creates exactly one row: the first call
persists and returns `isDuplicate = false`, the second call performs no
save (the repository state is unchanged) and returns the very message
persisted by the first call - same id - with `isDuplicate = true`. -/
theorem c1_webhook_processing_idempotent
    (repo : Repo) (t1 t2 : ℤ) (provider : Provider) (payload : Json)
    (data : CreateNormalizedMessage)
    (hvn : validateAndNormalize provider payload = .ok data)
    (hfresh : PrismaMessageRepository.findByExternalId repo data.provider data.externalId = none) :
    ∃ (m : NormalizedMessage) (repo1 : Repo),
      ProcessWebhookUseCase.execute repo t1 provider payload =
        .ok ({ message := m, isDuplicate := false }, repo1) ∧
      repo1.length = repo.length + 1 ∧
      ProcessWebhookUseCase.execute repo1 t2 provider payload =
        .ok ({ message := m, isDuplicate := true }, repo1) := by
  have hfind : repo.find? (matchesKey data.provider data.externalId) = none := by
    unfold PrismaMessageRepository.findByExternalId at hfresh
    cases hx : repo.find? (matchesKey data.provider data.externalId) with
    | none => rfl
    | some r => rw [hx] at hfresh; cases hfresh
  have hkey : matchesKey data.provider data.externalId (newMessageRecord repo data t1) = true := by
    simp [matchesKey, newMessageRecord]
  have hfind2 : (repo ++ [newMessageRecord repo data t1]).find?
      (matchesKey data.provider data.externalId) = some (newMessageRecord repo data t1) := by
    rw [List.find?_append, hfind]
    simp [List.find?, hkey]
  refine ⟨mapToEntity (newMessageRecord repo data t1), repo ++ [newMessageRecord repo data t1],
    ?_, by simp, ?_⟩
  · simp only [ProcessWebhookUseCase.execute, ProcessWebhookUseCase.executeInterleaved, hvn,
      PrismaMessageRepository.findByExternalId, hfind, Option.map_none',
      PrismaMessageRepository.save, prismaMessageCreate, Option.isSome_none,
      Bool.false_eq_true, if_false]
  · simp only [ProcessWebhookUseCase.execute, ProcessWebhookUseCase.executeInterleaved, hvn,
      PrismaMessageRepository.findByExternalId, hfind2, Option.map_some']

/-- C1 (witness): processing the completed scenario-A payload twice
against an empty repository. -/
theorem c1_webhook_processing_idempotent_witness :
    ∃ (m : NormalizedMessage) (repo1 : Repo),
      ProcessWebhookUseCase.execute [] 10 Provider.zapi scenarioAPayloadFull =
        .ok ({ message := m, isDuplicate := false }, repo1) ∧
      repo1.length = List.length ([] : Repo) + 1 ∧
      ProcessWebhookUseCase.execute repo1 20 Provider.zapi scenarioAPayloadFull =
        .ok ({ message := m, isDuplicate := true }, repo1) :=
  c1_webhook_processing_idempotent [] 10 20 Provider.zapi scenarioAPayloadFull scenarioAData
    (by decide) (by decide)

/-- C2 (counterexample): in the duplicate-insert race - the pre-check
sees a store without the `(zapi, "m1")` row, the save runs against a
store that already has it - `execute` does not return the existing row
with `isDuplicate = true`: it propagates a
`ProcessingError('save_message')` wrapping the unique-constraint
failure. -/
theorem c2_race_counterexample :
    ProcessWebhookUseCase.executeInterleaved [] [scenarioARow] 0 Provider.zapi
        scenarioAPayloadFull =
      .error (.processingError "save_message" (.processingError "save_message"
        (.jsError "Unique constraint failed on the fields: (provider,externalId)"))) ∧
    ProcessWebhookUseCase.executeInterleaved [] [scenarioARow] 0 Provider.zapi
        scenarioAPayloadFull ≠
      .ok ({ message := mapToEntity scenarioARow, isDuplicate := true }, [scenarioARow]) := by
  decide

/-- C2 (amended): when the pre-check finds no existing message but the
save then hits the `(provider, externalId)` unique constraint because a
row with the same key was committed in between, `execute` throws a
`ProcessingError` tagged `save_message` (wrapping the repository's own
`save_message` wrapping of the unique-constraint cause) instead of
returning the existing row as a duplicate. -/
theorem c2_race_save_propagates_error
    (findRepo saveRepo : Repo) (t : ℤ) (provider : Provider) (payload : Json)
    (data : CreateNormalizedMessage) (existing : MessageRecord)
    (hvn : validateAndNormalize provider payload = .ok data)
    (hpre : PrismaMessageRepository.findByExternalId findRepo data.provider data.externalId = none)
    (hrace : saveRepo.find? (matchesKey data.provider data.externalId) = some existing) :
    ProcessWebhookUseCase.executeInterleaved findRepo saveRepo t provider payload =
      .error (.processingError "save_message" (.processingError "save_message"
        (.jsError "Unique constraint failed on the fields: (provider,externalId)"))) := by
  have hfind : findRepo.find? (matchesKey data.provider data.externalId) = none := by
    unfold PrismaMessageRepository.findByExternalId at hpre
    cases hx : findRepo.find? (matchesKey data.provider data.externalId) with
    | none => rfl
    | some r => rw [hx] at hpre; cases hpre
  simp only [ProcessWebhookUseCase.executeInterleaved, hvn,
    PrismaMessageRepository.findByExternalId, hfind, Option.map_none',
    PrismaMessageRepository.save, prismaMessageCreate, hrace, Option.isSome_some, if_true]

/-- C2 (witness for the amended claim): the concrete race on the
`(zapi, "m1")` key. -/
theorem c2_race_save_propagates_error_witness :
    ProcessWebhookUseCase.executeInterleaved [] [scenarioARow] 5 Provider.zapi
        scenarioAPayloadFull =
      .error (.processingError "save_message" (.processingError "save_message"
        (.jsError "Unique constraint failed on the fields: (provider,externalId)"))) :=
  c2_race_save_propagates_error [] [scenarioARow] 5 Provider.zapi scenarioAPayloadFull
    scenarioAData scenarioARow (by decide) (by decide) (by decide)

/-- C8: when processing reports a duplicate, the `POST /webhook/:provider`
handler responds with the already-processed acknowledgment, invokes
neither the classifier contract nor `updateClassification`, and leaves
the repository unchanged. -/
theorem c8_duplicate_response_no_reclassification
    (repo : Repo) (classify : String → Except ThrownError Classification) (t : ℤ)
    (ps : String) (provider : Provider) (body : Json)
    (out : ProcessWebhookOutput) (repo' : Repo)
    (hps : parseProviderParam ps = some provider)
    (hexec : ProcessWebhookUseCase.execute repo t provider body = .ok (out, repo'))
    (hdup : out.isDuplicate = true) :
    webhookPostHandler repo classify t (some ps) body =
      { response := .okDuplicate out.message.id
        repo := repo
        classifierCalls := 0
        updateClassificationCalls := 0 } := by
  have hrepo : repo' = repo := by
    unfold ProcessWebhookUseCase.execute ProcessWebhookUseCase.executeInterleaved at hexec
    cases hv : validateAndNormalize provider body with
    | error e => simp only [hv] at hexec; cases hexec
    | ok data =>
      simp only [hv] at hexec
      cases hf : PrismaMessageRepository.findByExternalId repo data.provider data.externalId with
      | some ex =>
          simp only [hf, Except.ok.injEq, Prod.mk.injEq] at hexec
          exact hexec.2.symm
      | none =>
          simp only [hf] at hexec
          cases hs : PrismaMessageRepository.save repo data t with
          | error e => simp only [hs] at hexec; cases hexec
          | ok pr =>
              obtain ⟨sm, r2⟩ := pr
              simp only [hs, Except.ok.injEq, Prod.mk.injEq] at hexec
              rw [← hexec.1] at hdup
              simp at hdup
  subst hrepo
  simp only [webhookPostHandler, hps, hexec, hdup, if_true]

/-- C8 (witness): resubmitting scenario A's payload against a store that
already holds its row yields the duplicate acknowledgment with zero
classifier and zero update calls. -/
theorem c8_duplicate_response_no_reclassification_witness :
    webhookPostHandler [scenarioARow] sampleClassifier 7 (some "zapi") scenarioAPayloadFull =
      { response := .okDuplicate (mapToEntity scenarioARow).id
        repo := [scenarioARow]
        classifierCalls := 0
        updateClassificationCalls := 0 } :=
  c8_duplicate_response_no_reclassification [scenarioARow] sampleClassifier 7 "zapi"
    Provider.zapi scenarioAPayloadFull
    { message := mapToEntity scenarioARow, isDuplicate := true } [scenarioARow]
    (by decide) (by decide) (by decide)

/-- Short-circuit of `ClassifyMessageUseCase.execute` on an
already-classified message: the stored classification is returned, the
classifier is not invoked, and the repository is untouched. -/
theorem classifyExecute_already_classified (repo : Repo)
    (classify : String → Except ThrownError Classification) (id : String)
    (msg : NormalizedMessage) (c : Classification)
    (hfind : PrismaMessageRepository.findById repo id = some msg)
    (hclass : msg.classification = some c) :
    ClassifyMessageUseCase.execute repo classify id =
      { result := .ok (msg, c), repo := repo, classifierCalls := 0 } := by
  simp only [ClassifyMessageUseCase.execute, hfind, hclass]

/-- C5: classify-once.  (1) For every persisted message whose
classification is already set, `ClassifyMessageUseCase.execute` returns
that classification unchanged, performs zero classifier invocations and
leaves the repository unchanged.  (2) Hence, whenever a first call
returns a result (whose intent, per the classifier contract, is drawn
from the fixed non-empty category names), running `execute` again on the
same message id performs zero further classifier invocations and
returns the first result unchanged; the first call itself invoked the
classifier at most once. -/
theorem c5_classify_once :
    (∀ (repo : Repo) (classify : String → Except ThrownError Classification) (id : String)
        (msg : NormalizedMessage) (c : Classification),
        PrismaMessageRepository.findById repo id = some msg →
        msg.classification = some c →
        ClassifyMessageUseCase.execute repo classify id =
          { result := .ok (msg, c), repo := repo, classifierCalls := 0 }) ∧
    (∀ (repo : Repo) (classify : String → Except ThrownError Classification) (id : String)
        (out : NormalizedMessage × Classification),
        (ClassifyMessageUseCase.execute repo classify id).result = .ok out →
        out.2.intent ≠ "" →
        (ClassifyMessageUseCase.execute repo classify id).classifierCalls ≤ 1 ∧
        ClassifyMessageUseCase.execute (ClassifyMessageUseCase.execute repo classify id).repo
            classify id =
          { result := .ok out
            repo := (ClassifyMessageUseCase.execute repo classify id).repo
            classifierCalls := 0 }) := by
  constructor
  · exact classifyExecute_already_classified
  · intro repo classify id out hres hintent
    unfold ClassifyMessageUseCase.execute at hres ⊢
    cases hf : PrismaMessageRepository.findById repo id with
    | none => simp only [hf] at hres; cases hres
    | some msg =>
      cases hc : msg.classification with
      | some c =>
          simp only [hf, hc] at hres ⊢
          injection hres with hres
          subst hres
          refine ⟨by norm_num, ?_⟩
          simp only [hf, hc]
      | none =>
        cases hcl : classify msg.message.content with
        | error e => simp only [hf, hc, hcl] at hres; cases hres
        | ok c =>
          cases hup : PrismaMessageRepository.updateClassification repo id c with
          | error e => simp only [hf, hc, hcl, hup] at hres; cases hres
          | ok pr =>
            obtain ⟨updated, repo2⟩ := pr
            simp only [hf, hc, hcl, hup] at hres ⊢
            injection hres with hres
            have hout2 : out.2 = c := by rw [← hres]
            unfold PrismaMessageRepository.updateClassification prismaMessageUpdate at hup
            cases hfr : repo.find? (fun r => decide (r.id = id)) with
            | none => rw [hfr] at hup; cases hup
            | some r0 =>
              rw [hfr] at hup
              simp only [Except.ok.injEq, Prod.mk.injEq] at hup
              obtain ⟨hupd, hrepo2⟩ := hup
              have hr0 : r0.id = id := by
                have hb := List.find?_some hfr
                simpa using hb
              have hfind2 : PrismaMessageRepository.findById repo2 id = some updated := by
                unfold PrismaMessageRepository.findById
                rw [← hrepo2, find?_after_update, hfr]
                simp only [Option.map_some', hr0, if_true, hupd]
              have hclass2 : updated.classification = some c := by
                rw [← hupd]
                have hcne : c.intent ≠ "" := by rw [← hout2]; exact hintent
                simp [mapToEntity, applyClassification, hcne]
              refine ⟨by norm_num, ?_⟩
              simp only [hfind2, hclass2, ← hres]

/-- C5 (witness): an already-classified row is returned unchanged with
zero classifier calls, and a fresh row classified once is returned
unchanged by a second call with zero further classifier calls. -/
theorem c5_classify_once_witness :
    ClassifyMessageUseCase.execute [classifiedRow] sampleClassifier "row-0" =
      { result := .ok (mapToEntity classifiedRow,
          { intent := "saudacao", confidence := (1 : ℚ) })
        repo := [classifiedRow]
        classifierCalls := 0 } ∧
    ((ClassifyMessageUseCase.execute [scenarioARow] sampleClassifier "row-0").classifierCalls ≤ 1 ∧
      ClassifyMessageUseCase.execute
          (ClassifyMessageUseCase.execute [scenarioARow] sampleClassifier "row-0").repo
          sampleClassifier "row-0" =
        { result := .ok
            (mapToEntity (applyClassification { intent := "outro", confidence := (1 : ℚ) }
              scenarioARow),
             { intent := "outro", confidence := (1 : ℚ) })
          repo := (ClassifyMessageUseCase.execute [scenarioARow] sampleClassifier "row-0").repo
          classifierCalls := 0 }) :=
  ⟨c5_classify_once.1 [classifiedRow] sampleClassifier "row-0" (mapToEntity classifiedRow)
      { intent := "saudacao", confidence := (1 : ℚ) } (by decide) (by decide),
   c5_classify_once.2 [scenarioARow] sampleClassifier "row-0"
      (mapToEntity (applyClassification { intent := "outro", confidence := (1 : ℚ) } scenarioARow),
       { intent := "outro", confidence := (1 : ℚ) }) (by decide) (by decide)⟩

/-- When the injected classifier contract fails on every input, the
webhook handler never calls `updateClassification`. -/
theorem webhookHandler_no_update_of_classifier_error (e0 : ThrownError)
    (repo : Repo) (t : ℤ) (pp : Option String) (body : Json) :
    (webhookPostHandler repo (fun _ => .error e0) t pp body).updateClassificationCalls = 0 := by
  unfold webhookPostHandler
  cases pp with
  | none => rfl
  | some ps =>
    cases hp : parseProviderParam ps with
    | none => simp [hp]
    | some provider =>
      simp only [hp]
      cases he : ProcessWebhookUseCase.execute repo t provider body with
      | error e => simp [he]
      | ok pr =>
        obtain ⟨out, repo1⟩ := pr
        simp only [he]
        by_cases hd : out.isDuplicate
        · simp [hd]
        · simp [hd, ClassifyMessageUseCase.classifyContent]

/-- C6: confidence bound enforcement.  For every decoded classifier
reply whose `confidence` field is a number outside `[0, 1]`,
`ClaudeService`'s response parsing fails with a
`ProcessingError('parse_classification')` before anything is persisted,
and a webhook request served with such a classifier performs zero
`updateClassification` calls - no out-of-range classification reaches
the repository through the classifier contract. -/
theorem c6_confidence_bound (parsed : Json) (q : ℚ)
    (hq : parsed.get "confidence" = some (.num q)) (hout : q < 0 ∨ q > 1) :
    (∃ e, ClaudeService.classify parsed =
      .error (.processingError "parse_classification" e)) ∧
    ∀ (repo : Repo) (t : ℤ) (pp : Option String) (body : Json),
      (webhookPostHandler repo (fun _ => ClaudeService.classify parsed) t pp
        body).updateClassificationCalls = 0 := by
  have hp : ∃ e, ClaudeService.parseClassificationResponse parsed =
      .error (.processingError "parse_classification" e) := by
    unfold ClaudeService.parseClassificationResponse
    cases hi : parsed.get "intent" with
    | none => exact ⟨.jsError "Campo intent ausente ou inválido", rfl⟩
    | some v =>
      cases v with
      | str intent =>
          refine ⟨.jsError "Campo confidence deve estar entre 0 e 1", ?_⟩
          rw [hq]
          simp only [if_pos hout]
      | null => exact ⟨.jsError "Campo intent ausente ou inválido", rfl⟩
      | bool b => exact ⟨.jsError "Campo intent ausente ou inválido", rfl⟩
      | num n => exact ⟨.jsError "Campo intent ausente ou inválido", rfl⟩
      | arr xs => exact ⟨.jsError "Campo intent ausente ou inválido", rfl⟩
      | obj fs => exact ⟨.jsError "Campo intent ausente ou inválido", rfl⟩
  obtain ⟨e, he⟩ := hp
  have hcls : ClaudeService.classify parsed =
      .error (.processingError "parse_classification" e) := by
    unfold ClaudeService.classify
    rw [he]
  refine ⟨⟨e, hcls⟩, ?_⟩
  intro repo t pp body
  have hfun : (fun _ : String => ClaudeService.classify parsed) =
      fun _ => .error (.processingError "parse_classification" e) :=
    funext fun _ => hcls
  rw [hfun]
  exact webhookHandler_no_update_of_classifier_error _ repo t pp body

/-- C6 (witness): the decoded reply
`{intent: "saudacao", confidence: 2}` is rejected and triggers no
classification update on a fresh webhook request. -/
theorem c6_confidence_bound_witness :
    (∃ e, ClaudeService.classify badConfidenceResponse =
      .error (.processingError "parse_classification" e)) ∧
    (webhookPostHandler [] (fun _ => ClaudeService.classify badConfidenceResponse) 0
      (some "zapi") scenarioAPayloadFull).updateClassificationCalls = 0 := by
  have h := c6_confidence_bound badConfidenceResponse 2 rfl (Or.inr one_lt_two)
  exact ⟨h.1, h.2 [] 0 (some "zapi") scenarioAPayloadFull⟩

/-- An optional string is JavaScript-truthy exactly when it is a present,
non-empty string. -/
theorem jsTruthyStr_eq_true {o : Option String} :
    jsTruthyStr o = true ↔ ∃ s, o = some s ∧ s ≠ "" := by
  cases o <;> simp [jsTruthyStr]

/-- C4: text-content fallback and non-emptiness.  For every payload
accepted by the Z-API adapter's validate, `extractContent` is never the
empty string and follows the order: primary text field first, then the
image caption, then a fixed placeholder (`"[Imagem recebida]"` for an
image without caption, `"[Mídia recebida]"` otherwise); and for every
payload accepted by the Meta adapter's validate, `normalize` succeeds
with a non-empty text content (the schema's `min(1)` body bound). -/
theorem c4_content_nonempty_fallback :
    (∀ (raw : Json) (p : ZApiWebhookPayload), ZApiWebhookSchema.safeParse raw = .ok p →
      ZApiAdapter.extractContent p ≠ "" ∧
      (∀ t, p.text = some t → ZApiAdapter.extractContent p = t.message) ∧
      (jsTruthyStr (p.text.map ZApiText.message) = false →
        ∀ cap, p.image.bind ZApiImage.caption = some cap → cap ≠ "" →
          ZApiAdapter.extractContent p = cap) ∧
      (jsTruthyStr (p.text.map ZApiText.message) = false →
        jsTruthyStr (p.image.bind ZApiImage.caption) = false →
          ZApiAdapter.extractContent p = "[Imagem recebida]" ∨
          ZApiAdapter.extractContent p = "[Mídia recebida]")) ∧
    (∀ (raw : Json) (p : MetaWebhookPayload), MetaWebhookSchema.safeParse raw = .ok p →
      ∃ m, MetaAdapter.normalize p = .ok m ∧ m.message.content ≠ "") := by
  constructor
  · intro raw p h
    have htext := zapi_safeParse_text h
    refine ⟨?_, ?_, ?_, ?_⟩
    · unfold ZApiAdapter.extractContent
      split
      · rename_i ht
        obtain ⟨s, hs, hne⟩ := jsTruthyStr_eq_true.mp ht
        rw [hs]
        simpa using hne
      · split
        · rename_i ht hc
          obtain ⟨s, hs, hne⟩ := jsTruthyStr_eq_true.mp hc
          rw [hs]
          simpa using hne
        · split
          · decide
          · decide
    · intro t ht
      have hne : t.message ≠ "" := zapiTextParseOpt_ok_some (ht ▸ htext)
      simp [ZApiAdapter.extractContent, ht, jsTruthyStr, hne]
    · intro hfalse cap hcap hcapne
      unfold ZApiAdapter.extractContent
      rw [if_neg (by simp [hfalse])]
      simp [hcap, jsTruthyStr, hcapne]
    · intro hfalse1 hfalse2
      unfold ZApiAdapter.extractContent
      rw [if_neg (by simp [hfalse1]), if_neg (by simp [hfalse2])]
      cases p.image <;> simp
  · intro raw p h
    obtain ⟨entry, change, msg, contact, h1, h2, h3, h4, hbody, hnorm⟩ :=
      meta_validated_normalize h
    exact ⟨_, hnorm, hbody⟩

/-- C4 (witness): the scenario-A payload has non-empty extracted content
(`"hello"`), and the sample Meta payload normalizes with non-empty
content. -/
theorem c4_content_nonempty_fallback_witness :
    ZApiAdapter.extractContent scenarioAParsed ≠ "" ∧
    (∃ m, MetaAdapter.normalize metaSampleParsed = .ok m ∧ m.message.content ≠ "") :=
  ⟨(c4_content_nonempty_fallback.1 scenarioAPayloadFull scenarioAParsed (by decide)).1,
   c4_content_nonempty_fallback.2 metaSamplePayload metaSampleParsed (by decide)⟩

/-- C7: canonical timestamp unit.  Both adapters normalize to epoch
milliseconds: for every validated Meta payload, `normalize` succeeds and
the timestamp equals the first message's seconds-epoch string parsed as
an integer (`parseInt`) and multiplied by 1000; for every validated
Z-API payload whose `momment` is an integer number of milliseconds, the
normalized timestamp is exactly `momment`. -/
theorem c7_canonical_timestamp_milliseconds :
    (∀ (raw : Json) (p : MetaWebhookPayload), MetaWebhookSchema.safeParse raw = .ok p →
      ∃ entry change msg m,
        p.entry.head? = some entry ∧
        entry.changes.head? = some change ∧
        change.value.messages.head? = some msg ∧
        MetaAdapter.normalize p = .ok m ∧
        m.timestamp = (jsParseInt msg.timestamp).map fun n => n * 1000) ∧
    (∀ (raw : Json) (p : ZApiWebhookPayload) (k : ℤ),
      ZApiWebhookSchema.safeParse raw = .ok p → p.momment = (k : ℚ) →
      (ZApiAdapter.normalize p).timestamp = some k) := by
  constructor
  · intro raw p h
    obtain ⟨entry, change, msg, contact, h1, h2, h3, h4, hbody, hnorm⟩ :=
      meta_validated_normalize h
    exact ⟨entry, change, msg, _, h1, h2, h3, hnorm,
      jsNewDate_int_mul (jsParseInt msg.timestamp)⟩
  · intro raw p k h hm
    simp only [ZApiAdapter.normalize, jsNewDate, Option.map_some', hm, ratTrunc_intCast]

/-- C7 (witness): the sample Meta payload (seconds string
`"1700000000"`) and scenario A (`momment = 1700000000000`). -/
theorem c7_canonical_timestamp_milliseconds_witness :
    (∃ entry change msg m,
        metaSampleParsed.entry.head? = some entry ∧
        entry.changes.head? = some change ∧
        change.value.messages.head? = some msg ∧
        MetaAdapter.normalize metaSampleParsed = .ok m ∧
        m.timestamp = (jsParseInt msg.timestamp).map fun n => n * 1000) ∧
    (ZApiAdapter.normalize scenarioAParsed).timestamp = some 1700000000000 :=
  ⟨c7_canonical_timestamp_milliseconds.1 metaSamplePayload metaSampleParsed (by decide),
   c7_canonical_timestamp_milliseconds.2 scenarioAPayloadFull scenarioAParsed 1700000000000
     (by decide) (by decide)⟩
